import Mathlib

/-!
Shallow embedding of the resumable-task waiting/resumption core of
`src/tbb/task.cpp` (oneTBB development branch), together with theorems
checking the natural-language specification against it.

Modelling conventions:
  * `m_ref_count` is a packed 64-bit counter: bit 63 is `waiter_flag`,
    bit 62 is `lock_flag`, bits 0..61 hold the outstanding-work count.
    We model it as a `Nat` together with arithmetic bit accessors;
    `fetch_or`/`fetch_and` on a single bit are modelled as the equivalent
    conditional add/subtract (exact for values below 2^64).
  * The intrusive waiter list reachable from `m_wait_head` is modelled as
    the list of node identifiers in chain order (`[]` = null pointer).
  * Fatal assertions (`__TBB_ASSERT`) are modelled with `Except String`.
  * Concurrent interference on the atomic counter (needed for
    `publish_wait_list`) is modelled by a trace of the values the atomic
    holds at the successive hardware access points of the call.
  * Each stateful operation additionally returns the list of events it
    performs, so that ordering and lock-discipline properties can be
    stated about the call.
-/

namespace Tbb

/-- Bit 62 of `m_ref_count`: the spin-lock bit protecting `m_wait_head`. -/
def lock_flag : Nat := 2 ^ 62

/-- Bit 63 of `m_ref_count`: set while a waiter registration is published. -/
def waiter_flag : Nat := 2 ^ 63

/-- Outstanding-work count: the low 62 bits of the packed counter. -/
def wcCount (v : Nat) : Nat := v % lock_flag

/-- The `lock_flag` bit of a packed counter value (0 or 1). -/
def lockBit (v : Nat) : Nat := v / lock_flag % 2

/-- The `waiter_flag` bit of a packed counter value (0 or 1). -/
def waiterBit (v : Nat) : Nat := v / waiter_flag % 2

/-- Effect of `fetch_or(waiter_flag)` / `expected | waiter_flag` on the value. -/
def setWaiterFlag (v : Nat) : Nat := if waiterBit v = 1 then v else v + waiter_flag

/-- Effect of `fetch_and(~waiter_flag)` on the value. -/
def clearWaiterFlag (v : Nat) : Nat := if waiterBit v = 1 then v - waiter_flag else v

/-- Effect of `fetch_or(lock_flag)` on the value. -/
def setLockFlag (v : Nat) : Nat := if lockBit v = 1 then v else v + lock_flag

/-- Effect of `fetch_and(~lock_flag)` on the value. -/
def clearLockFlag (v : Nat) : Nat := if lockBit v = 1 then v - lock_flag else v

/-- Modelled from the spec: `wait_context::continue_execution()` is declared in
a header that is not part of the excerpt; per the spec it tests
"outstanding count > 0" on the current counter value. -/
def continueExecutionVal (v : Nat) : Bool := decide (0 < wcCount v)

/-- The retry loop of `wait_context::publish_wait_list()` (task.cpp:57-74),
run against an interference trace: `expected` is the value obtained by the
entry load (or the previous failed CAS), and `trace` lists the values the
atomic counter holds at the successive access points of the loop — first
the fresh read performed by `continue_execution()`, then the value the
`compare_exchange_strong` sees; a failed CAS stores that value into
`expected`.  Returns `none` when the trace is exhausted before the loop
exits (the call has not yet returned), otherwise `some (r, written)` where
`r` is the returned `expected & waiter_flag` and `written` is the value
installed by a successful CAS, if any. -/
def publishLoop : Nat → List Nat → Option (Bool × Option Nat)
  | expected, trace =>
    if waiterBit expected = 1 then
      some (true, Option.none)
    else
      match trace with
      | [] => Option.none
      | [ce] =>
        if continueExecutionVal ce then Option.none else some (false, Option.none)
      | ce :: cas :: rest =>
        if continueExecutionVal ce then
          if cas = expected then
            some (true, some (setWaiterFlag expected))
          else
            publishLoop cas rest
        else
          some (false, Option.none)

/-- A counter-value trace is zero-absorbing when once the outstanding-work
count has reached zero it stays zero for the rest of the trace.  This is the
environment guarantee of the scheduler: completed work is never resurrected
on the same `wait_context`. -/
def zeroAbsorbing : List Nat → Bool
  | [] => true
  | v :: rest =>
    (decide (0 < wcCount v) || rest.all fun u => decide (wcCount u = 0)) && zeroAbsorbing rest

/-- State of a `d1::wait_context`: the packed counter, the chain of waiter
nodes reachable from `m_wait_head` (in link order, `[]` = null), and the
protocol version. -/
structure wait_context where
  m_ref_count : Nat
  m_wait_head : List Nat
  m_version_and_traits : Nat
deriving DecidableEq

/-- Events performed by a wait-context operation, in program order. -/
inductive WCEvent where
  /-- `lock()` returned, `lock_flag` now held by the caller. -/
  | lockAcquire : WCEvent
  /-- `unlock()`: `lock_flag` cleared. -/
  | lockRelease : WCEvent
  /-- A store to `m_wait_head` (the new reachable chain). -/
  | headWrite (newHead : List Nat) : WCEvent
  /-- `wait_node::notify_all` fanning out over the collected chain. -/
  | notifyChain (nodes : List Nat) : WCEvent
  /-- `r1::resume` invoked on the given suspend point. -/
  | spResume (sp : Nat) : WCEvent
  /-- A plain store to `m_ref_count` of the given value. -/
  | refStore (v : Nat) : WCEvent
deriving DecidableEq

/-- `wait_context::continue_execution()` on the current state
(`Modelled from the spec`, see `continueExecutionVal`). -/
def wait_context.continue_execution (wc : wait_context) : Bool :=
  continueExecutionVal wc.m_ref_count

/-- `wait_context::publish_wait_list()` (task.cpp:57-74) in the absence of
interference on the counter: every access point observes the value currently
stored.  This is the instance `publishLoop v [v, v]` of the trace model
(see `publish_wait_list_eq_publishLoop`): if `waiter_flag` is already set the
loop is skipped and the call returns true; otherwise, if the outstanding
count is zero the loop exits via `continue_execution()` and returns false;
otherwise the CAS succeeds and installs `waiter_flag`. -/
def wait_context.publish_wait_list (wc : wait_context) : Bool × wait_context :=
  if waiterBit wc.m_ref_count = 1 then
    (true, wc)
  else if wcCount wc.m_ref_count = 0 then
    (false, wc)
  else
    (true, { wc with m_ref_count := setWaiterFlag wc.m_ref_count })

/-- `wait_context::unregister_waiter(node)` (task.cpp:76-85): take the lock;
if the list is non-empty, advance `m_wait_head` past `node` when it is the
head, then `node.unlink()` — modelled from the spec ("unlinks `node` from
the list, handling the case it is the head") as removing `node` from the
chain; release the lock. -/
def wait_context.unregister_waiter (wc : wait_context) (node : Nat) :
    wait_context × List WCEvent :=
  let rc1 := setLockFlag wc.m_ref_count
  match wc.m_wait_head with
  | [] =>
    ({ wc with m_ref_count := clearLockFlag rc1 }, [.lockAcquire, .lockRelease])
  | h :: t =>
    let l1 := if h = node then t else h :: t
    let l2 := l1.erase node
    ({ wc with m_ref_count := clearLockFlag rc1, m_wait_head := l2 },
      [.lockAcquire, .headWrite l2, .lockRelease])

/-- `wait_context::notify_waiters()` (task.cpp:87-96): take the lock; if the
list is non-empty, `m_wait_head->notify_all(*this)` — modelled from the spec
("single notification fans out to all registered nodes via their link chain
... triggers resumption for every collected node") as a fan-out event plus
one `r1::resume` trigger per chained node — then reset `m_wait_head` to
null; store `m_ref_count & ~waiter_flag`; release the lock at the end of the
`lock_guard` scope. -/
def wait_context.notify_waiters (wc : wait_context) : wait_context × List WCEvent :=
  let rc1 := setLockFlag wc.m_ref_count
  let rc2 := clearWaiterFlag rc1
  match wc.m_wait_head with
  | [] =>
    ({ wc with m_ref_count := clearLockFlag rc2 },
      [.lockAcquire, .refStore rc2, .lockRelease])
  | h :: t =>
    ({ wc with m_ref_count := clearLockFlag rc2, m_wait_head := [] },
      [WCEvent.lockAcquire, WCEvent.notifyChain (h :: t)]
        ++ (h :: t).map WCEvent.spResume
        ++ [WCEvent.headWrite [], WCEvent.refStore rc2, WCEvent.lockRelease])

/-- Modelled from the spec: `wait_context::try_register_waiter(node, cond)`
(declared in a header that is not part of the excerpt) is the "generic
registration routine with a recheck predicate" of the current protocol:
under the lock it re-checks `continue_execution()`; if work remains it links
the node into the waiter list and publishes the wait list, otherwise it
registers nothing; it returns whether the node was registered. -/
def wait_context.try_register_waiter (wc : wait_context) (node : Nat) :
    Bool × wait_context × List WCEvent :=
  let rc1 := setLockFlag wc.m_ref_count
  if continueExecutionVal rc1 then
    let wc1 : wait_context :=
      { wc with m_ref_count := rc1, m_wait_head := node :: wc.m_wait_head }
    let pub := wc1.publish_wait_list
    (pub.1, { pub.2 with m_ref_count := clearLockFlag pub.2.m_ref_count },
      [.lockAcquire, .headWrite (node :: wc.m_wait_head), .lockRelease])
  else
    (false, { wc with m_ref_count := clearLockFlag rc1 }, [.lockAcquire, .lockRelease])

/-- `r1::notify_waiters(wait_context&)` (task.cpp:290-294): asserts
`m_version_and_traits > 0`, then forwards to `wait_context::notify_waiters`. -/
def r1_notify_waiters (wc : wait_context) :
    Except String (wait_context × List WCEvent) :=
  if 0 < wc.m_version_and_traits then
    .ok wc.notify_waiters
  else
    .error "assertion violated: wc.m_version_and_traits > 0"

/-- Checks that every `m_wait_head` mutation in an event trace happens while
the mutating caller holds `lock_flag` (`d` is the current lock depth). -/
def headWritesLocked : List WCEvent → Nat → Bool
  | [], _ => true
  | WCEvent.lockAcquire :: rest, d => headWritesLocked rest (d + 1)
  | WCEvent.lockRelease :: rest, d => headWritesLocked rest (d - 1)
  | WCEvent.headWrite _ :: rest, d => decide (0 < d) && headWritesLocked rest d
  | _ :: rest, d => headWritesLocked rest d

/-- Checks that every resumption trigger (the `notify_all` fan-out and each
`r1::resume` call) in an event trace happens after the lock has been
released, i.e. at lock depth zero. -/
def resumesUnlocked : List WCEvent → Nat → Bool
  | [], _ => true
  | WCEvent.lockAcquire :: rest, d => resumesUnlocked rest (d + 1)
  | WCEvent.lockRelease :: rest, d => resumesUnlocked rest (d - 1)
  | WCEvent.notifyChain _ :: rest, d => decide (d = 0) && resumesUnlocked rest d
  | WCEvent.spResume _ :: rest, d => decide (d = 0) && resumesUnlocked rest d
  | _ :: rest, d => resumesUnlocked rest d

/-- The discriminant `thread_data::post_resume_action` (declared in
thread_data.h; its five values are visible from the switch in task.cpp). -/
inductive PostResumeAction where
  | none : PostResumeAction
  | register_waiter : PostResumeAction
  | callback : PostResumeAction
  | cleanup : PostResumeAction
  | notify : PostResumeAction
deriving DecidableEq

/-- The payload behind the `void* my_post_resume_arg` pointer, one variant
per action kind: `register_waiter_data` bundles the wait context, the
address of the stack-allocated `wait_node` and the node's suspend point;
`callbackWrapper` bundles the user callback, its argument and the suspend
point of the suspending dispatcher; `dispatcherToCleanup` and `recallFlag`
carry the respective addresses. -/
inductive ResumeArg where
  | register_waiter_data (wo : wait_context) (node : Nat) (nodeSp : Nat) : ResumeArg
  | callbackWrapper (cb : Nat) (userData : Nat) (sp : Nat) : ResumeArg
  | dispatcherToCleanup (d : Nat) : ResumeArg
  | recallFlag (f : Nat) : ResumeArg
deriving DecidableEq

/-- The slice of `r1::thread_data` used here: the attached dispatcher, the
pending post-resume action with its argument (`Option.none` = null pointer),
and `my_arena_slot->my_default_task_dispatcher` of the thread's slot. -/
structure thread_data where
  my_task_dispatcher : Nat
  my_post_resume_action : PostResumeAction
  my_post_resume_arg : Option ResumeArg
  my_arena_slot_default : Nat
deriving DecidableEq

/-- The slice of `r1::arena` used here: the reference counter, the two
work streams (each a list of pushed (task, lane) pairs, most recent first)
and the coroutine reuse cache. -/
structure Arena where
  my_references : Nat
  my_resume_task_stream : List (Nat × Nat)
  my_critical_task_stream : List (Nat × Nat)
  my_co_cache : List Nat
deriving DecidableEq

/-- The slice of `suspend_point_type` used here: the recall flag, the random
state used for lane selection, the resume task (by id) and the
`critical_task_allowed` property of the dispatcher the resume task targets. -/
structure suspend_point_type where
  m_is_owner_recalled : Bool
  m_random : Nat
  m_resume_task : Nat
  m_target_critical_task_allowed : Bool
deriving DecidableEq

/-- The slice of `r1::task_dispatcher` used here. -/
structure task_dispatcher where
  id : Nat
  outermost : Bool
  critical_task_allowed : Bool
  m_suspend_point : Option suspend_point_type
deriving DecidableEq

/-- Events performed on the dispatcher/arena side, in program order. -/
inductive BEvent where
  /-- A push into `my_resume_task_stream`. -/
  | pushResumeStream (task lane : Nat) : BEvent
  /-- A push into `my_critical_task_stream`. -/
  | pushCriticalStream (task lane : Nat) : BEvent
  /-- `advertise_new_work<wakeup>()`. -/
  | advertiseWork : BEvent
  /-- `my_references += ref_external`. -/
  | arenaRefAdd : BEvent
  /-- `on_thread_leaving<ref_external>()`. -/
  | arenaRefRelease : BEvent
  /-- The body of the given switch case of `do_post_resume_action` ran. -/
  | actionRun (a : PostResumeAction) : BEvent
  /-- The user suspend callback was invoked. -/
  | callbackInvoked (cb userData sp : Nat) : BEvent
  /-- `my_co_cache.push` of the given dispatcher. -/
  | cachePush (d : Nat) : BEvent
  /-- The store to the external owner-recall flag at address `f`. -/
  | recallFlagStore (f : Nat) (v : Bool) : BEvent
  /-- The low-level coroutine context swap. -/
  | coSwap : BEvent
  /-- `r1::resume` invoked on the given suspend point. -/
  | spResume (sp : Nat) : BEvent
  /-- A wait-context event performed through a referenced wait context. -/
  | wc (e : WCEvent) : BEvent
deriving DecidableEq

/-- The value of `arena::ref_external` (defined in arena.h; the exact value
is irrelevant to the claims, only that add and release cancel). -/
def ref_ext : Nat := 1

/-- Modelled from the spec: `random_lane_selector(m_random)` picks a
"randomized lane to reduce contention"; we model the lane as the current
value of the suspend point's random state. -/
def random_lane_selector (r : Nat) : Nat := r

/-- `r1::resume(suspend_point_type*)` (task.cpp:113-139), in a build with
`__TBB_PREVIEW_CRITICAL_TASKS` enabled: prolong the arena's lifetime, push
the suspend point's resume task into the regular resumable stream when the
target dispatcher may take critical tasks, into the critical stream
otherwise, advertise new work, then release the temporary reference. -/
def r1_resume (sp : suspend_point_type) (a : Arena) : Arena × List BEvent :=
  let a1 := { a with my_references := a.my_references + ref_ext }
  let lane := random_lane_selector sp.m_random
  let pushed :=
    if sp.m_target_critical_task_allowed then
      ({ a1 with my_resume_task_stream := (sp.m_resume_task, lane) :: a1.my_resume_task_stream },
        BEvent.pushResumeStream sp.m_resume_task lane)
    else
      ({ a1 with my_critical_task_stream := (sp.m_resume_task, lane) :: a1.my_critical_task_stream },
        BEvent.pushCriticalStream sp.m_resume_task lane)
  let a3 := { pushed.1 with my_references := pushed.1.my_references - ref_ext }
  (a3, [BEvent.arenaRefAdd, pushed.2, BEvent.advertiseWork, BEvent.arenaRefRelease])

/-- `create_coroutine(thread_data&)` (task.cpp:146-159): pop a cached task
dispatcher if available, otherwise allocate and initialize a fresh one
(identified by `freshId`); in both cases add an external arena reference.
The third component records whether a new coroutine was created. -/
def create_coroutine (a : Arena) (freshId : Nat) : Nat × Arena × Bool :=
  match a.my_co_cache with
  | d :: rest =>
    (d, { a with my_co_cache := rest, my_references := a.my_references + ref_ext }, false)
  | [] =>
    (freshId, { a with my_references := a.my_references + ref_ext }, true)

/-- The pre-swap part of `task_dispatcher::suspend` (task.cpp:161-181):
observe `m_is_owner_recalled` of the default dispatcher's suspend point; the
resumption target is the default dispatcher itself when recalled, otherwise
`create_coroutine`; then record the pending callback post-resume action.
The subsequent `resume(target)` swap is modelled by `task_dispatcher.resume`.
Returns (target dispatcher id, arena, whether a new coroutine was created,
updated thread data). -/
def task_dispatcher.suspend (is_recalled : Bool) (defaultDispId : Nat) (a : Arena)
    (freshId : Nat) (td : thread_data) (cb userData selfSp : Nat) :
    Nat × Arena × Bool × thread_data :=
  let chosen := if is_recalled then (defaultDispId, a, false) else create_coroutine a freshId
  let td1 := { td with
    my_post_resume_action := PostResumeAction.callback,
    my_post_resume_arg := some (ResumeArg.callbackWrapper cb userData selfSp) }
  (chosen.1, chosen.2.1, chosen.2.2, td1)

/-- `thread_data::do_post_resume_action()` (task.cpp:218-271): assert an
action and its argument are pending; run the one pending action; clear the
discriminant and the argument.  The `register_waiter` case covers both the
legacy `m_version_and_traits == 0` path (store the suspend point into
`m_wait_head` directly, then `publish_wait_list`; on failure `r1::resume`)
and the current path (`try_register_waiter` with the `continue_execution`
recheck; on failure `r1::resume`).  A `void*` argument that does not match
the discriminant would be a type-confused cast; it is modelled as an error.
Returns the new thread data, the new state of the wait context referenced by
a `register_waiter` action (if any), and the events. -/
def thread_data.do_post_resume_action (td : thread_data) :
    Except String (thread_data × Option wait_context × List BEvent) :=
  match td.my_post_resume_action, td.my_post_resume_arg with
  | PostResumeAction.none, _ =>
    .error "assertion violated: The post resume action must be set"
  | _, Option.none =>
    .error "assertion violated: The post resume action must have an argument"
  | PostResumeAction.register_waiter, some (ResumeArg.register_waiter_data wo node nodeSp) =>
    let cleared := { td with
      my_post_resume_action := PostResumeAction.none, my_post_resume_arg := Option.none }
    if wo.m_version_and_traits = 0 then
      -- Backward compatibility: m_wait_head is assigned the suspend point
      -- (reinterpret_cast) without taking the lock.
      let wo1 := { wo with m_wait_head := [nodeSp] }
      let pub := wo1.publish_wait_list
      let resumeEvs := if pub.1 then ([] : List BEvent) else [BEvent.spResume nodeSp]
      .ok (cleared, some pub.2,
        [BEvent.actionRun PostResumeAction.register_waiter,
          BEvent.wc (WCEvent.headWrite [nodeSp])] ++ resumeEvs)
    else
      let reg := wo.try_register_waiter node
      let resumeEvs := if reg.1 then ([] : List BEvent) else [BEvent.spResume nodeSp]
      .ok (cleared, some reg.2.1,
        BEvent.actionRun PostResumeAction.register_waiter
          :: reg.2.2.map BEvent.wc ++ resumeEvs)
  | PostResumeAction.callback, some (ResumeArg.callbackWrapper cb userData sp) =>
    let cleared := { td with
      my_post_resume_action := PostResumeAction.none, my_post_resume_arg := Option.none }
    .ok (cleared, Option.none,
      [BEvent.actionRun PostResumeAction.callback, BEvent.callbackInvoked cb userData sp])
  | PostResumeAction.cleanup, some (ResumeArg.dispatcherToCleanup d) =>
    let cleared := { td with
      my_post_resume_action := PostResumeAction.none, my_post_resume_arg := Option.none }
    .ok (cleared, Option.none,
      [BEvent.actionRun PostResumeAction.cleanup, BEvent.arenaRefRelease, BEvent.cachePush d])
  | PostResumeAction.notify, some (ResumeArg.recallFlag f) =>
    let cleared := { td with
      my_post_resume_action := PostResumeAction.none, my_post_resume_arg := Option.none }
    .ok (cleared, Option.none,
      [BEvent.actionRun PostResumeAction.notify, BEvent.recallFlagStore f true])
  | _, some _ =>
    .error "type-confused post resume argument"

/-- `task_dispatcher::resume(task_dispatcher& target)` (task.cpp:183-216).
`tdBefore` is the attached thread data at entry; the context swap may hand
the dispatcher to a different physical thread, so the thread data observed
after the swap returns is a separate input `tdAfter`.  Asserted
preconditions are modelled as errors; after the swap the one pending
post-resume action of `tdAfter` runs, then, if this dispatcher is the
slot's default dispatcher, its suspend point's `m_is_owner_recalled` is
stored false.  Returns (this dispatcher's new state, thread data after the
action, wait context touched by the action if any, events). -/
def task_dispatcher.resume (self target : task_dispatcher)
    (tdBefore tdAfter : thread_data) :
    Except String (task_dispatcher × thread_data × Option wait_context × List BEvent) :=
  if self.id = target.id then
    .error "assertion violated: We cannot resume to ourself"
  else if tdBefore.my_task_dispatcher ≠ self.id then
    .error "assertion violated: Thread data must be attached to this task dispatcher"
  else if tdBefore.my_post_resume_action = PostResumeAction.none then
    .error "assertion violated: The post resume action must be set"
  else if tdBefore.my_post_resume_arg = Option.none then
    .error "assertion violated: The post resume action must have an argument"
  else
    match self.m_suspend_point, target.m_suspend_point with
    | Option.none, _ => .error "assertion violated: Suspend point must be created"
    | _, Option.none => .error "assertion violated: Suspend point must be created"
    | some ssp, some _ =>
      -- td->detach_task_dispatcher(); td->attach_task_dispatcher(target):
      -- the detached thread data (now attached to `target`) is handed to the
      -- target coroutine by the swap and no longer visible to this call.
      if tdAfter.my_task_dispatcher ≠ self.id then
        .error "assertion violated: Thread data must be attached to this task dispatcher"
      else
        match tdAfter.do_post_resume_action with
        | .error e => .error e
        | .ok (td1, wc1, evs) =>
          if self.id = tdAfter.my_arena_slot_default then
            .ok ({ self with m_suspend_point := some { ssp with m_is_owner_recalled := false } },
              td1, wc1, BEvent.coSwap :: evs)
          else
            .ok (self, td1, wc1, BEvent.coSwap :: evs)

/-- The wait-context events embedded in a dispatcher-side trace. -/
def wcEvents (evs : List BEvent) : List WCEvent :=
  evs.filterMap fun e =>
    match e with
    | BEvent.wc w => some w
    | _ => Option.none

/-- The switch-case bodies of `do_post_resume_action` recorded in a trace. -/
def actionRuns (evs : List BEvent) : List PostResumeAction :=
  evs.filterMap fun e =>
    match e with
    | BEvent.actionRun a => some a
    | _ => Option.none

/-- The event list of a dispatcher-side result (empty on assertion failure). -/
def exceptEvents (r : Except String (thread_data × Option wait_context × List BEvent)) :
    List BEvent :=
  match r with
  | .ok (_, _, evs) => evs
  | .error _ => []

/-- The suspend points resumed in a wait-context event trace, in order. -/
def spResumes (evs : List WCEvent) : List Nat :=
  evs.filterMap fun e =>
    match e with
    | WCEvent.spResume s => some s
    | _ => Option.none

/-- Concrete suspend point used by witnesses. -/
def sp0 : suspend_point_type := ⟨false, 3, 40, true⟩

/-- Concrete dispatcher (id 1) used by witnesses. -/
def dispA : task_dispatcher := ⟨1, true, true, some sp0⟩

/-- Concrete dispatcher (id 2) used by witnesses. -/
def dispB : task_dispatcher := ⟨2, false, true, some sp0⟩

/-- Concrete attached thread data with a pending callback action. -/
def tdMain : thread_data := ⟨1, PostResumeAction.callback, some (ResumeArg.callbackWrapper 5 6 7), 1⟩

/-- Concrete legacy wait context (version 0, two units of work outstanding). -/
def c3wc : wait_context := ⟨2, [], 0⟩

/-- Concrete thread data with a pending legacy `register_waiter` action. -/
def c3td : thread_data := ⟨1, PostResumeAction.register_waiter,
  some (ResumeArg.register_waiter_data c3wc 10 11), 1⟩

/-- Concrete current-protocol wait context with two registered waiters. -/
def c5wc : wait_context := ⟨2 + 2 ^ 63, [21, 22], 1⟩

/-- Concrete current-protocol wait context with outstanding work. -/
def c8wc : wait_context := ⟨2, [], 1⟩

/-- Concrete thread data with a pending current-protocol registration. -/
def c8td : thread_data := ⟨1, PostResumeAction.register_waiter,
  some (ResumeArg.register_waiter_data c8wc 10 11), 1⟩

-- ======================================================================
-- Theorems
-- ======================================================================

theorem lock_flag_val : lock_flag = 4611686018427387904 := by
  norm_num [lock_flag]

theorem waiter_flag_val : waiter_flag = 9223372036854775808 := by
  norm_num [waiter_flag]

theorem waiterBit_le_one (v : Nat) : waiterBit v ≤ 1 := by
  unfold waiterBit
  omega

theorem wcCount_setWaiterFlag (v : Nat) : wcCount (setWaiterFlag v) = wcCount v := by
  unfold wcCount setWaiterFlag waiterBit
  rw [lock_flag_val, waiter_flag_val]
  split <;> omega

theorem waiterBit_setWaiterFlag (v : Nat) : waiterBit (setWaiterFlag v) = 1 := by
  unfold setWaiterFlag waiterBit
  rw [waiter_flag_val]
  split <;> omega

theorem wcCount_setLockFlag (v : Nat) : wcCount (setLockFlag v) = wcCount v := by
  unfold wcCount setLockFlag lockBit
  rw [lock_flag_val]
  split <;> omega

theorem lockBit_clearLockFlag (v : Nat) : lockBit (clearLockFlag v) = 0 := by
  unfold clearLockFlag lockBit
  rw [lock_flag_val]
  split <;> omega

theorem clearLockFlag_setLockFlag (v : Nat) (h : lockBit v = 0) :
    clearLockFlag (setLockFlag v) = v := by
  unfold clearLockFlag setLockFlag lockBit at *
  rw [lock_flag_val] at *
  have hne : ¬ v / 4611686018427387904 % 2 = 1 := by omega
  simp only [if_neg hne]
  split <;> omega

theorem waiterBit_clearLockFlag (v : Nat) : waiterBit (clearLockFlag v) = waiterBit v := by
  unfold clearLockFlag waiterBit lockBit
  rw [lock_flag_val, waiter_flag_val]
  split <;> omega

theorem waiterBit_clearWaiterFlag (v : Nat) : waiterBit (clearWaiterFlag v) = 0 := by
  unfold clearWaiterFlag waiterBit
  rw [waiter_flag_val]
  split <;> omega

theorem zeroAbsorbing_tail (v : Nat) (l : List Nat) (h : zeroAbsorbing (v :: l) = true) :
    zeroAbsorbing l = true := by
  simp only [zeroAbsorbing, Bool.and_eq_true] at h
  exact h.2

theorem zeroAbsorbing_head_zero (v : Nat) (l : List Nat)
    (h : zeroAbsorbing (v :: l) = true) (hz : wcCount v = 0) :
    ∀ u ∈ l, wcCount u = 0 := by
  simp only [zeroAbsorbing, Bool.and_eq_true, Bool.or_eq_true, decide_eq_true_eq,
    List.all_eq_true] at h
  intro u hu
  rcases h.1 with h1 | h1
  · omega
  · exact h1 u hu

set_option maxHeartbeats 1000000 in
/-- C1: across any interference trace on the packed counter (with the
scheduler guarantee that a zero outstanding count never comes back up), when
`publish_wait_list()` returns: if every observed value had outstanding work,
it returned true; if it returned false it wrote nothing and some observation
point had zero outstanding work; any value it did install carries
`waiter_flag` over a still-positive outstanding count — the flag is never
set once the count has reached zero; and it returns true only when this call
installed the flag or some observation already carried it. -/
theorem publish_wait_list_never_sets_flag_after_zero
    (expected : Nat) (trace : List Nat) (r : Bool) (written : Option Nat)
    (habs : zeroAbsorbing (expected :: trace) = true)
    (hret : publishLoop expected trace = some (r, written)) :
    ((∀ v ∈ expected :: trace, 0 < wcCount v) → r = true)
    ∧ (r = false → written = Option.none ∧ ∃ v ∈ expected :: trace, wcCount v = 0)
    ∧ (∀ w, written = some w → waiterBit w = 1 ∧ 0 < wcCount w)
    ∧ (r = true → written ≠ Option.none ∨ ∃ v ∈ expected :: trace, waiterBit v = 1) := by
  induction expected, trace using publishLoop.induct with
  | case1 expected trace hflag =>
    unfold publishLoop at hret
    rw [if_pos hflag] at hret
    simp only [Option.some.injEq, Prod.mk.injEq] at hret
    obtain ⟨hr, hw⟩ := hret
    subst hr hw
    refine ⟨fun _ => rfl, by simp, by simp, ?_⟩
    intro _
    exact Or.inr ⟨expected, by simp, hflag⟩
  | case2 expected hflag =>
    unfold publishLoop at hret
    rw [if_neg hflag] at hret
    exact absurd hret (by simp)
  | case3 expected hflag ce hce =>
    unfold publishLoop at hret
    rw [if_neg hflag] at hret
    simp only [hce, if_true] at hret
    exact absurd hret (by simp)
  | case4 expected hflag ce hce =>
    unfold publishLoop at hret
    rw [if_neg hflag] at hret
    simp only [hce, if_false, Bool.false_eq_true] at hret
    simp only [Option.some.injEq, Prod.mk.injEq] at hret
    obtain ⟨hr, hw⟩ := hret
    subst hr hw
    have hce0 : wcCount ce = 0 := by
      simp only [continueExecutionVal, decide_eq_true_eq] at hce
      omega
    refine ⟨?_, ?_, by simp, by simp⟩
    · intro hall
      exact absurd (hall ce (by simp)) (by omega)
    · intro _
      exact ⟨rfl, ce, by simp, hce0⟩
  | case5 ce cas rest hce hflag =>
    unfold publishLoop at hret
    rw [if_neg hflag] at hret
    simp only [hce, if_true, if_pos rfl] at hret
    simp only [Option.some.injEq, Prod.mk.injEq] at hret
    obtain ⟨hr, hw⟩ := hret
    subst hr hw
    have hcaspos : 0 < wcCount cas := by
      by_contra hzero
      have hz : wcCount cas = 0 := by omega
      have := zeroAbsorbing_head_zero cas (ce :: cas :: rest) habs hz ce (by simp)
      simp only [continueExecutionVal, decide_eq_true_eq] at hce
      omega
    refine ⟨fun _ => rfl, by simp, ?_, fun _ => Or.inl (by simp)⟩
    intro w hw
    simp only [Option.some.injEq] at hw
    subst hw
    exact ⟨waiterBit_setWaiterFlag cas, by rw [wcCount_setWaiterFlag]; exact hcaspos⟩
  | case6 expected hflag ce cas rest hce hne ih =>
    unfold publishLoop at hret
    rw [if_neg hflag] at hret
    simp only [hce, if_true, if_neg hne] at hret
    have habs1 : zeroAbsorbing (cas :: rest) = true :=
      zeroAbsorbing_tail ce (cas :: rest)
        (zeroAbsorbing_tail expected (ce :: cas :: rest) habs)
    obtain ⟨ih1, ih2, ih3, ih4⟩ := ih habs1 hret
    refine ⟨?_, ?_, ih3, ?_⟩
    · intro hall
      exact ih1 fun v hv => hall v (by simp at hv ⊢; tauto)
    · intro hr
      obtain ⟨hw, v, hv, hvz⟩ := ih2 hr
      exact ⟨hw, v, by simp at hv ⊢; tauto, hvz⟩
    · intro hr
      rcases ih4 hr with hwr | ⟨v, hv, hvf⟩
      · exact Or.inl hwr
      · exact Or.inr ⟨v, by simp at hv ⊢; tauto, hvf⟩
  | case7 expected hflag ce cas rest hce =>
    unfold publishLoop at hret
    rw [if_neg hflag] at hret
    simp only [hce, if_false, Bool.false_eq_true] at hret
    simp only [Option.some.injEq, Prod.mk.injEq] at hret
    obtain ⟨hr, hw⟩ := hret
    subst hr hw
    have hce0 : wcCount ce = 0 := by
      simp only [continueExecutionVal, decide_eq_true_eq] at hce
      omega
    refine ⟨?_, ?_, by simp, by simp⟩
    · intro hall
      exact absurd (hall ce (by simp)) (by omega)
    · intro _
      exact ⟨rfl, ce, by simp, hce0⟩

/-- Witness for C1 at the concrete trace `1 :: [1, 1]` (one unit of work
outstanding, no interference): the call returns true with the flag
installed over a positive count. -/
theorem publish_wait_list_never_sets_flag_after_zero_witness :
    ((∀ v ∈ (1 : Nat) :: [1, 1], 0 < wcCount v) → true = true)
    ∧ (true = false →
        (some (setWaiterFlag 1) : Option Nat) = Option.none
          ∧ ∃ v ∈ (1 : Nat) :: [1, 1], wcCount v = 0)
    ∧ (∀ w, (some (setWaiterFlag 1) : Option Nat) = some w →
        waiterBit w = 1 ∧ 0 < wcCount w)
    ∧ (true = true →
        (some (setWaiterFlag 1) : Option Nat) ≠ Option.none
          ∨ ∃ v ∈ (1 : Nat) :: [1, 1], waiterBit v = 1) :=
  publish_wait_list_never_sets_flag_after_zero 1 [1, 1] true (some (setWaiterFlag 1))
    (by decide) (by decide)

/-- Sanity tie between the two embeddings of `publish_wait_list`: the
sequential version is the interference-free instance of the trace model. -/
theorem publish_wait_list_matches_trace_model (wc : wait_context) :
    publishLoop wc.m_ref_count [wc.m_ref_count, wc.m_ref_count]
      = some ((wc.publish_wait_list).1,
          if waiterBit wc.m_ref_count ≠ 1 ∧ 0 < wcCount wc.m_ref_count
          then some (setWaiterFlag wc.m_ref_count) else Option.none) := by
  by_cases h1 : waiterBit wc.m_ref_count = 1
  · simp [publishLoop, wait_context.publish_wait_list, h1]
  · by_cases h2 : wcCount wc.m_ref_count = 0
    · simp [publishLoop, wait_context.publish_wait_list, continueExecutionVal, h1, h2]
    · simp [publishLoop, wait_context.publish_wait_list, continueExecutionVal, h1, h2,
        Nat.pos_of_ne_zero]

/-- C10: the exposed entry point `r1::notify_waiters` asserts a non-legacy
wait context (`m_version_and_traits > 0`) and otherwise forwards to
`wait_context::notify_waiters`. -/
theorem r1_notify_waiters_requires_nonlegacy (wc : wait_context) :
    (wc.m_version_and_traits = 0 →
      r1_notify_waiters wc
        = .error "assertion violated: wc.m_version_and_traits > 0")
    ∧ (0 < wc.m_version_and_traits →
      r1_notify_waiters wc = .ok wc.notify_waiters) := by
  unfold r1_notify_waiters
  constructor
  · intro h
    rw [if_neg (by omega)]
  · intro h
    rw [if_pos h]

/-- Witness for C10 on a concrete legacy wait context. -/
theorem r1_notify_waiters_requires_nonlegacy_witness :
    r1_notify_waiters ⟨2, [], 0⟩
      = .error "assertion violated: wc.m_version_and_traits > 0" :=
  (r1_notify_waiters_requires_nonlegacy ⟨2, [], 0⟩).1 rfl

/-- Helper: `unregister_waiter` on an empty waiter list by an unlocked
caller is the identity up to the lock round-trip. -/
theorem unregister_waiter_empty (wc : wait_context) (node : Nat)
    (hh : wc.m_wait_head = []) (hl : lockBit wc.m_ref_count = 0) :
    wc.unregister_waiter node = (wc, [WCEvent.lockAcquire, WCEvent.lockRelease]) := by
  unfold wait_context.unregister_waiter
  rcases wc with ⟨rc, head, ver⟩
  simp only at hh hl
  subst hh
  simp [clearLockFlag_setLockFlag _ hl]

/-- C7: once `notify_waiters()` has emptied the list, a subsequent
`unregister_waiter` leaves the wait context unchanged and performs nothing
but the lock round-trip: no node is resumed again and `m_wait_head` stays
empty. -/
theorem unregister_after_notify_noop (wc : wait_context) (node : Nat) :
    ((wc.notify_waiters).1.unregister_waiter node).1 = (wc.notify_waiters).1
    ∧ ((wc.notify_waiters).1.unregister_waiter node).2
        = [WCEvent.lockAcquire, WCEvent.lockRelease] := by
  have hhead : (wc.notify_waiters).1.m_wait_head = [] := by
    unfold wait_context.notify_waiters
    rcases hw : wc.m_wait_head with _ | ⟨hh, tt⟩ <;> simp [hw]
  have hlock2 : lockBit (wc.notify_waiters).1.m_ref_count = 0 := by
    unfold wait_context.notify_waiters
    rcases hw : wc.m_wait_head with _ | ⟨hh, tt⟩ <;> simp [hw, lockBit_clearLockFlag]
  rw [unregister_waiter_empty _ node hhead hlock2]
  exact ⟨rfl, rfl⟩

/-- Witness for C7 on a concrete notified wait context with one waiter. -/
theorem unregister_after_notify_noop_witness :
    (((⟨2 + 2 ^ 63, [5], 1⟩ : wait_context).notify_waiters).1.unregister_waiter 5).1
        = ((⟨2 + 2 ^ 63, [5], 1⟩ : wait_context).notify_waiters).1
    ∧ (((⟨2 + 2 ^ 63, [5], 1⟩ : wait_context).notify_waiters).1.unregister_waiter 5).2
        = [WCEvent.lockAcquire, WCEvent.lockRelease] :=
  unregister_after_notify_noop ⟨2 + 2 ^ 63, [5], 1⟩ 5

/-- Counterexample to C3: the legacy (`m_version_and_traits == 0`) branch of
the `register_waiter` post-resume action writes `m_wait_head` without
holding `lock_flag` (task.cpp:229 is executed outside any lock scope). -/
theorem legacy_register_mutates_head_unlocked :
    headWritesLocked (wcEvents (exceptEvents c3td.do_post_resume_action)) 0 = false := by
  decide

/-- Helper: `headWritesLocked` ignores a block of resume events. -/
theorem headWritesLocked_map_spResume (l : List Nat) (rest : List WCEvent) (d : Nat) :
    headWritesLocked (l.map WCEvent.spResume ++ rest) d = headWritesLocked rest d := by
  induction l with
  | nil => rfl
  | cons x xs ih => simpa [headWritesLocked] using ih

/-- Helper: the lock discipline of the notify event trace. -/
theorem headWritesLocked_notify_trace (l : List Nat) (rc2 : Nat) :
    headWritesLocked (WCEvent.lockAcquire :: WCEvent.notifyChain l ::
      (l.map WCEvent.spResume
        ++ [WCEvent.headWrite [], WCEvent.refStore rc2, WCEvent.lockRelease])) 0 = true := by
  have h1 : headWritesLocked (WCEvent.lockAcquire :: WCEvent.notifyChain l ::
      (l.map WCEvent.spResume
        ++ [WCEvent.headWrite [], WCEvent.refStore rc2, WCEvent.lockRelease])) 0
      = headWritesLocked (l.map WCEvent.spResume
        ++ [WCEvent.headWrite [], WCEvent.refStore rc2, WCEvent.lockRelease]) 1 := rfl
  rw [h1, headWritesLocked_map_spResume]
  rfl

/-- C3 as amended: every `m_wait_head` mutation performed by
`unregister_waiter`, `notify_waiters` and the current-protocol registration
routine happens while the mutating caller holds `lock_flag`; only the legacy
registration path (see the counterexample) mutates the head unlocked. -/
theorem locked_protocol_head_mutations_hold_lock (wc : wait_context) (node : Nat) :
    headWritesLocked (wc.unregister_waiter node).2 0 = true
    ∧ headWritesLocked (wc.notify_waiters).2 0 = true
    ∧ headWritesLocked (wc.try_register_waiter node).2.2 0 = true := by
  rcases wc with ⟨rc, head, ver⟩
  refine ⟨?_, ?_, ?_⟩
  · rcases head with _ | ⟨hh, tt⟩ <;> rfl
  · rcases head with _ | ⟨hh, tt⟩
    · rfl
    · exact headWritesLocked_notify_trace (hh :: tt) _
  · unfold wait_context.try_register_waiter
    by_cases hc : continueExecutionVal (setLockFlag rc) = true <;>
      simp [hc, headWritesLocked]

/-- Counterexample to C5: on a wait context with registered waiters,
`notify_waiters()` triggers the resumption fan-out while `lock_flag` is
still held (the `notify_all` call sits inside the `lock_guard` scope), not
after the lock has been released. -/
theorem notify_waiters_resumes_under_lock :
    resumesUnlocked (c5wc.notify_waiters).2 0 = false := by
  decide

/-- Helper: the resumed suspend points of a resume-event block. -/
theorem spResumes_map_append (l : List Nat) (rest : List WCEvent) :
    spResumes (l.map WCEvent.spResume ++ rest) = l ++ spResumes rest := by
  induction l with
  | nil => rfl
  | cons x xs ih => simpa [spResumes] using ih

/-- Helper: every chained node appears exactly once among the resume
triggers of the notify event trace. -/
theorem spResumes_notify_trace (l : List Nat) (rc2 : Nat) :
    spResumes (WCEvent.lockAcquire :: WCEvent.notifyChain l ::
      (l.map WCEvent.spResume
        ++ [WCEvent.headWrite [], WCEvent.refStore rc2, WCEvent.lockRelease])) = l := by
  have h1 : spResumes (WCEvent.lockAcquire :: WCEvent.notifyChain l ::
      (l.map WCEvent.spResume
        ++ [WCEvent.headWrite [], WCEvent.refStore rc2, WCEvent.lockRelease]))
      = spResumes (l.map WCEvent.spResume
        ++ [WCEvent.headWrite [], WCEvent.refStore rc2, WCEvent.lockRelease]) := rfl
  rw [h1, spResumes_map_append]
  simp [spResumes]

/-- Helper: the notify event trace ends with the lock release. -/
theorem getLast_notify_trace (l : List Nat) (rc2 : Nat) :
    (WCEvent.lockAcquire :: WCEvent.notifyChain l ::
      (l.map WCEvent.spResume
        ++ [WCEvent.headWrite [], WCEvent.refStore rc2, WCEvent.lockRelease])).getLast?
      = some WCEvent.lockRelease := by
  rw [show WCEvent.lockAcquire :: WCEvent.notifyChain l ::
      (l.map WCEvent.spResume
        ++ [WCEvent.headWrite [], WCEvent.refStore rc2, WCEvent.lockRelease])
      = (WCEvent.lockAcquire :: WCEvent.notifyChain l :: l.map WCEvent.spResume)
        ++ [WCEvent.headWrite [], WCEvent.refStore rc2, WCEvent.lockRelease] from by simp]
  rw [List.getLast?_append_of_ne_nil _ (by simp)]
  rfl

/-- C5 as amended: `notify_waiters()` acquires the lock first, resumes
exactly the nodes of the entire current waiter list once each, resets
`m_wait_head` to empty and clears `waiter_flag`, and releases the lock
last — but the resumption of the collected nodes is triggered while the
lock is still held, not after its release. -/
theorem notify_waiters_collects_all_under_lock (wc : wait_context)
    (h : lockBit wc.m_ref_count = 0) :
    (wc.notify_waiters).1.m_wait_head = []
    ∧ waiterBit (wc.notify_waiters).1.m_ref_count = 0
    ∧ lockBit (wc.notify_waiters).1.m_ref_count = 0
    ∧ spResumes (wc.notify_waiters).2 = wc.m_wait_head
    ∧ (wc.notify_waiters).2.head? = some WCEvent.lockAcquire
    ∧ (wc.notify_waiters).2.getLast? = some WCEvent.lockRelease
    ∧ headWritesLocked (wc.notify_waiters).2 0 = true
    ∧ (wc.m_wait_head ≠ [] → resumesUnlocked (wc.notify_waiters).2 0 = false) := by
  rcases wc with ⟨rc, head, ver⟩
  rcases head with _ | ⟨hh, tt⟩
  · refine ⟨rfl, ?_, ?_, rfl, rfl, rfl, rfl, by simp⟩
    · show waiterBit (clearLockFlag (clearWaiterFlag (setLockFlag rc))) = 0
      rw [waiterBit_clearLockFlag, waiterBit_clearWaiterFlag]
    · show lockBit (clearLockFlag (clearWaiterFlag (setLockFlag rc))) = 0
      rw [lockBit_clearLockFlag]
  · refine ⟨rfl, ?_, ?_, ?_, rfl, ?_, ?_, fun _ => rfl⟩
    · show waiterBit (clearLockFlag (clearWaiterFlag (setLockFlag rc))) = 0
      rw [waiterBit_clearLockFlag, waiterBit_clearWaiterFlag]
    · show lockBit (clearLockFlag (clearWaiterFlag (setLockFlag rc))) = 0
      rw [lockBit_clearLockFlag]
    · exact spResumes_notify_trace (hh :: tt) _
    · exact getLast_notify_trace (hh :: tt) _
    · exact headWritesLocked_notify_trace (hh :: tt) _

/-- Witness for C5 (amended) on a concrete wait context with two waiters. -/
theorem notify_waiters_collects_all_under_lock_witness :
    (c5wc.notify_waiters).1.m_wait_head = []
    ∧ waiterBit (c5wc.notify_waiters).1.m_ref_count = 0
    ∧ lockBit (c5wc.notify_waiters).1.m_ref_count = 0
    ∧ spResumes (c5wc.notify_waiters).2 = c5wc.m_wait_head
    ∧ (c5wc.notify_waiters).2.head? = some WCEvent.lockAcquire
    ∧ (c5wc.notify_waiters).2.getLast? = some WCEvent.lockRelease
    ∧ headWritesLocked (c5wc.notify_waiters).2 0 = true
    ∧ (c5wc.m_wait_head ≠ [] → resumesUnlocked (c5wc.notify_waiters).2 0 = false) :=
  notify_waiters_collects_all_under_lock c5wc (by decide)

/-- C4: the suspend path resumes into the default (outermost) dispatcher
itself — creating nothing and leaving the cache untouched — exactly when its
recall flag was observed set; otherwise it takes the cached dispatcher when
one exists and allocates a fresh coroutine only when the cache is empty. -/
theorem suspend_target_selection (is_recalled : Bool) (defaultDispId : Nat) (a : Arena)
    (freshId : Nat) (td : thread_data) (cb userData selfSp : Nat) :
    (task_dispatcher.suspend is_recalled defaultDispId a freshId td cb userData selfSp).1
      = (if is_recalled then defaultDispId
          else match a.my_co_cache with
            | d :: _ => d
            | [] => freshId)
    ∧ (task_dispatcher.suspend is_recalled defaultDispId a freshId td cb userData selfSp).2.2.1
      = (!is_recalled && a.my_co_cache.isEmpty)
    ∧ (task_dispatcher.suspend is_recalled defaultDispId a freshId td cb userData selfSp).2.1.my_co_cache
      = (if is_recalled then a.my_co_cache else a.my_co_cache.tail) := by
  cases is_recalled <;> rcases hc : a.my_co_cache with _ | ⟨d, rest⟩ <;>
    simp [task_dispatcher.suspend, create_coroutine, hc]

/-- C6: the external `r1::resume` entry point performs exactly one enqueue
of the suspend point's resume task, into the critical stream when the
target dispatcher suspended mid-critical-task (`critical_task_allowed`
false) and into the regular resumable stream otherwise, at the randomized
lane. -/
theorem r1_resume_single_enqueue (sp : suspend_point_type) (a : Arena) :
    (r1_resume sp a).1.my_resume_task_stream
      = (if sp.m_target_critical_task_allowed
          then (sp.m_resume_task, random_lane_selector sp.m_random) :: a.my_resume_task_stream
          else a.my_resume_task_stream)
    ∧ (r1_resume sp a).1.my_critical_task_stream
      = (if sp.m_target_critical_task_allowed
          then a.my_critical_task_stream
          else (sp.m_resume_task, random_lane_selector sp.m_random) :: a.my_critical_task_stream)
    ∧ (r1_resume sp a).1.my_resume_task_stream.length
        + (r1_resume sp a).1.my_critical_task_stream.length
      = a.my_resume_task_stream.length + a.my_critical_task_stream.length + 1 := by
  cases hcrit : sp.m_target_critical_task_allowed <;>
    simp [r1_resume, hcrit] <;> omega

/-- Helper: `actionRuns` ignores a block of embedded wait-context events. -/
theorem actionRuns_map_wc_append (l : List WCEvent) (rest : List BEvent) :
    actionRuns (l.map BEvent.wc ++ rest) = actionRuns rest := by
  induction l with
  | nil => rfl
  | cons x xs ih => simp [actionRuns]

/-- Helper: `do_post_resume_action` runs exactly the one pending action and
clears the discriminant and the argument. -/
theorem do_post_spec (td : thread_data) (td1 : thread_data) (wc1 : Option wait_context)
    (evs : List BEvent)
    (hok : td.do_post_resume_action = .ok (td1, wc1, evs)) :
    actionRuns evs = [td.my_post_resume_action]
    ∧ td1.my_post_resume_action = PostResumeAction.none
    ∧ td1.my_post_resume_arg = Option.none := by
  unfold thread_data.do_post_resume_action at hok
  split at hok
  · exact absurd hok (by simp)
  · exact absurd hok (by simp)
  · rename_i wo node nodeSp hact harg
    split at hok
    · simp only [Except.ok.injEq, Prod.mk.injEq] at hok
      obtain ⟨h1, h2, h3⟩ := hok
      subst h1 h3
      rw [hact]
      refine ⟨?_, rfl, rfl⟩
      rcases ({ wo with m_wait_head := [nodeSp] } : wait_context).publish_wait_list.1 <;>
        simp [actionRuns]
    · simp only [Except.ok.injEq, Prod.mk.injEq] at hok
      obtain ⟨h1, h2, h3⟩ := hok
      subst h1 h3
      rw [hact]
      refine ⟨?_, rfl, rfl⟩
      rcases (wo.try_register_waiter node).1 <;> simp [actionRuns]
  · rename_i cb u s hact harg
    simp only [Except.ok.injEq, Prod.mk.injEq] at hok
    obtain ⟨h1, h2, h3⟩ := hok
    subst h1 h3
    rw [hact]
    exact ⟨by simp [actionRuns], rfl, rfl⟩
  · rename_i d hact harg
    simp only [Except.ok.injEq, Prod.mk.injEq] at hok
    obtain ⟨h1, h2, h3⟩ := hok
    subst h1 h3
    rw [hact]
    exact ⟨by simp [actionRuns], rfl, rfl⟩
  · rename_i f hact harg
    simp only [Except.ok.injEq, Prod.mk.injEq] at hok
    obtain ⟨h1, h2, h3⟩ := hok
    subst h1 h3
    rw [hact]
    exact ⟨by simp [actionRuns], rfl, rfl⟩
  · exact absurd hok (by simp)

/-- C2: when `task_dispatcher::resume(target)` runs to completion (its
asserted preconditions hold, with one pending action carrying a non-null
argument), exactly the one action pending after the context swap is
executed, and afterwards the discriminant is `none` and the argument null,
so no action can run a second time. -/
theorem resume_runs_pending_action_exactly_once
    (self target : task_dispatcher) (tdBefore tdAfter : thread_data)
    (disp1 : task_dispatcher) (td1 : thread_data) (wc1 : Option wait_context)
    (evs : List BEvent)
    (hok : task_dispatcher.resume self target tdBefore tdAfter
      = .ok (disp1, td1, wc1, evs)) :
    actionRuns evs = [tdAfter.my_post_resume_action]
    ∧ td1.my_post_resume_action = PostResumeAction.none
    ∧ td1.my_post_resume_arg = Option.none := by
  unfold task_dispatcher.resume at hok
  split at hok
  · exact absurd hok (by simp)
  split at hok
  · exact absurd hok (by simp)
  split at hok
  · exact absurd hok (by simp)
  split at hok
  · exact absurd hok (by simp)
  split at hok
  · exact absurd hok (by simp)
  · exact absurd hok (by simp)
  · split at hok
    · exact absurd hok (by simp)
    split at hok
    · exact absurd hok (by simp)
    · rename_i td' wc' evs' heq
      obtain ⟨hspec1, hspec2, hspec3⟩ := do_post_spec tdAfter td' wc' evs' heq
      split at hok <;>
      · simp only [Except.ok.injEq, Prod.mk.injEq] at hok
        obtain ⟨hd, ht, hw, he⟩ := hok
        subst ht hw he
        exact ⟨hspec1, hspec2, hspec3⟩

/-- Witness for C2 on a concrete resume between two dispatchers with a
pending callback action. -/
theorem resume_runs_pending_action_exactly_once_witness :
    actionRuns [BEvent.coSwap, BEvent.actionRun PostResumeAction.callback,
        BEvent.callbackInvoked 5 6 7] = [tdMain.my_post_resume_action]
    ∧ (⟨1, PostResumeAction.none, Option.none, 1⟩ : thread_data).my_post_resume_action
        = PostResumeAction.none
    ∧ (⟨1, PostResumeAction.none, Option.none, 1⟩ : thread_data).my_post_resume_arg
        = Option.none :=
  resume_runs_pending_action_exactly_once dispA dispB tdMain tdMain
    ⟨1, true, true, some ⟨false, 3, 40, true⟩⟩
    ⟨1, PostResumeAction.none, Option.none, 1⟩ Option.none
    [BEvent.coSwap, BEvent.actionRun PostResumeAction.callback,
      BEvent.callbackInvoked 5 6 7] rfl

/-- C9: after the swap and the post-resume action, `resume` stores false to
its suspend point's `m_is_owner_recalled` exactly when this dispatcher is
the slot's default dispatcher, and leaves itself untouched otherwise. -/
theorem resume_clears_recall_flag_on_default
    (self target : task_dispatcher) (tdBefore tdAfter : thread_data)
    (disp1 : task_dispatcher) (td1 : thread_data) (wc1 : Option wait_context)
    (evs : List BEvent) (ssp : suspend_point_type)
    (hsp : self.m_suspend_point = some ssp)
    (hok : task_dispatcher.resume self target tdBefore tdAfter
      = .ok (disp1, td1, wc1, evs)) :
    (self.id = tdAfter.my_arena_slot_default →
      disp1 = { self with
        m_suspend_point := some { ssp with m_is_owner_recalled := false } })
    ∧ (self.id ≠ tdAfter.my_arena_slot_default → disp1 = self) := by
  unfold task_dispatcher.resume at hok
  split at hok
  · exact absurd hok (by simp)
  split at hok
  · exact absurd hok (by simp)
  split at hok
  · exact absurd hok (by simp)
  split at hok
  · exact absurd hok (by simp)
  split at hok
  · exact absurd hok (by simp)
  · exact absurd hok (by simp)
  · rename_i ssp' tsp' hself htarget
    split at hok
    · exact absurd hok (by simp)
    split at hok
    · exact absurd hok (by simp)
    · rename_i td' wc' evs' heq
      have hssp : ssp' = ssp := by
        rw [hsp] at hself
        exact (Option.some.injEq _ _ ▸ hself).symm ▸ rfl
      split at hok
      · rename_i hdef
        simp only [Except.ok.injEq, Prod.mk.injEq] at hok
        obtain ⟨hd, ht, hw, he⟩ := hok
        subst hd
        constructor
        · intro _
          rw [hssp]
        · intro hne
          exact absurd hdef hne
      · rename_i hdef
        simp only [Except.ok.injEq, Prod.mk.injEq] at hok
        obtain ⟨hd, ht, hw, he⟩ := hok
        subst hd
        constructor
        · intro heqdef
          exact absurd heqdef hdef
        · intro _
          rfl

/-- Witness for C9: the concrete resume of `resume_runs_pending_action`
returns to the slot's default dispatcher, whose recall flag ends up false. -/
theorem resume_clears_recall_flag_on_default_witness :
    (⟨1, true, true, some ⟨false, 3, 40, true⟩⟩ : task_dispatcher)
      = { dispA with
          m_suspend_point := some { sp0 with m_is_owner_recalled := false } } :=
  (resume_clears_recall_flag_on_default dispA dispB tdMain tdMain
    ⟨1, true, true, some ⟨false, 3, 40, true⟩⟩
    ⟨1, PostResumeAction.none, Option.none, 1⟩ Option.none
    [BEvent.coSwap, BEvent.actionRun PostResumeAction.callback,
      BEvent.callbackInvoked 5 6 7] sp0 rfl rfl).1 rfl

/-- Helper: `publish_wait_list` never touches the waiter list. -/
theorem publish_wait_list_head (wc : wait_context) :
    ((wc.publish_wait_list).2).m_wait_head = wc.m_wait_head := by
  unfold wait_context.publish_wait_list
  split
  · rfl
  · split <;> rfl

/-- Helper: `publish_wait_list` succeeds exactly when the flag was already
set or work remains outstanding. -/
theorem publish_wait_list_fst (wc : wait_context) :
    (wc.publish_wait_list).1
      = (decide (waiterBit wc.m_ref_count = 1)
          || decide (0 < wcCount wc.m_ref_count)) := by
  unfold wait_context.publish_wait_list
  by_cases h1 : waiterBit wc.m_ref_count = 1
  · simp [h1]
  · by_cases h2 : wcCount wc.m_ref_count = 0
    · simp [h1, h2]
    · simp [h1, h2, Nat.pos_of_ne_zero h2]

/-- Helper: the current-protocol registration succeeds exactly when the
recheck predicate sees outstanding work. -/
theorem try_register_waiter_fst (wc : wait_context) (node : Nat) :
    (wc.try_register_waiter node).1 = decide (0 < wcCount wc.m_ref_count) := by
  unfold wait_context.try_register_waiter
  by_cases hc : continueExecutionVal (setLockFlag wc.m_ref_count) = true
  · have hc2 : 0 < wcCount wc.m_ref_count := by
      simpa [continueExecutionVal, wcCount_setLockFlag] using hc
    simp [hc, publish_wait_list_fst, wcCount_setLockFlag, hc2]
  · have hc2 : ¬ 0 < wcCount wc.m_ref_count := by
      simpa [continueExecutionVal, wcCount_setLockFlag] using hc
    simp [hc, hc2]

/-- Helper: a successful current-protocol registration links the node into
the waiter list. -/
theorem try_register_waiter_head_of_success (wc : wait_context) (node : Nat)
    (h : (wc.try_register_waiter node).1 = true) :
    node ∈ ((wc.try_register_waiter node).2.1).m_wait_head := by
  unfold wait_context.try_register_waiter at *
  by_cases hc : continueExecutionVal (setLockFlag wc.m_ref_count) = true
  · simp only [hc, if_true]
    simp [publish_wait_list_head]
  · simp [hc] at h

/-- C8: the `register_waiter` post-resume action, on both the legacy
(`m_version_and_traits == 0`) and the current path, either registers the
node into the wait context's waiter list or immediately calls `r1::resume`
on the suspend point — and, whenever registration fails because outstanding
work already completed, the suspend point is resumed rather than parked. -/
theorem register_waiter_registers_or_resumes
    (td : thread_data) (wo : wait_context) (node nodeSp : Nat)
    (td1 : thread_data) (wcOpt : Option wait_context) (evs : List BEvent)
    (hact : td.my_post_resume_action = PostResumeAction.register_waiter)
    (harg : td.my_post_resume_arg
      = some (ResumeArg.register_waiter_data wo node nodeSp))
    (hok : td.do_post_resume_action = .ok (td1, wcOpt, evs)) :
    (∃ wc2, wcOpt = some wc2
        ∧ (node ∈ wc2.m_wait_head ∨ nodeSp ∈ wc2.m_wait_head
            ∨ BEvent.spResume nodeSp ∈ evs))
    ∧ (wo.m_version_and_traits = 0 →
        waiterBit wo.m_ref_count = 0 → wcCount wo.m_ref_count = 0 →
          BEvent.spResume nodeSp ∈ evs)
    ∧ (wo.m_version_and_traits ≠ 0 →
        wcCount wo.m_ref_count = 0 → BEvent.spResume nodeSp ∈ evs) := by
  unfold thread_data.do_post_resume_action at hok
  split at hok
  · exact absurd hok (by simp)
  · exact absurd hok (by simp)
  · rename_i wo' node' nodeSp' hact' harg'
    rw [harg] at harg'
    injection harg' with h
    injection h with e1 e2 e3
    subst e1 e2 e3
    split at hok
    · rename_i hver
      simp only [Except.ok.injEq, Prod.mk.injEq] at hok
      obtain ⟨h1, h2, h3⟩ := hok
      subst h2 h3
      refine ⟨⟨_, rfl, ?_⟩, ?_, ?_⟩
      · right; left
        rw [publish_wait_list_head]
        simp
      · intro _ hflag hcount
        have hpub : (({ wo with m_wait_head := [nodeSp] } :
            wait_context).publish_wait_list).1 = false := by
          rw [publish_wait_list_fst]
          simp [hflag, hcount]
        simp [hpub]
      · intro hver2 _
        exact absurd hver hver2
    · rename_i hver
      simp only [Except.ok.injEq, Prod.mk.injEq] at hok
      obtain ⟨h1, h2, h3⟩ := hok
      subst h2 h3
      refine ⟨⟨_, rfl, ?_⟩, ?_, ?_⟩
      · rcases hreg : (wo.try_register_waiter node).1 with _ | _
        · right; right
          simp [hreg]
        · left
          exact try_register_waiter_head_of_success wo node hreg
      · intro hver2
        exact absurd hver2 hver
      · intro _ hcount
        have hreg : (wo.try_register_waiter node).1 = false := by
          rw [try_register_waiter_fst]
          simp [hcount]
        simp [hreg]
  · rename_i cb u s hact' harg'
    rw [hact] at hact'
    exact absurd hact' (by decide)
  · rename_i d hact' harg'
    rw [hact] at hact'
    exact absurd hact' (by decide)
  · rename_i f hact' harg'
    rw [hact] at hact'
    exact absurd hact' (by decide)
  · exact absurd hok (by simp)

/-- Witness for C8 on a concrete current-protocol registration with
outstanding work: the node is linked into the waiter list. -/
theorem register_waiter_registers_or_resumes_witness :
    (∃ wc2, (some (⟨2 + 2 ^ 63, [10], 1⟩ : wait_context) : Option wait_context)
          = some wc2
        ∧ (10 ∈ wc2.m_wait_head ∨ 11 ∈ wc2.m_wait_head
            ∨ BEvent.spResume 11 ∈
              [BEvent.actionRun PostResumeAction.register_waiter,
                BEvent.wc WCEvent.lockAcquire,
                BEvent.wc (WCEvent.headWrite [10]), BEvent.wc WCEvent.lockRelease]))
    ∧ (c8wc.m_version_and_traits = 0 →
        waiterBit c8wc.m_ref_count = 0 → wcCount c8wc.m_ref_count = 0 →
          BEvent.spResume 11 ∈
            [BEvent.actionRun PostResumeAction.register_waiter,
              BEvent.wc WCEvent.lockAcquire,
              BEvent.wc (WCEvent.headWrite [10]), BEvent.wc WCEvent.lockRelease])
    ∧ (c8wc.m_version_and_traits ≠ 0 →
        wcCount c8wc.m_ref_count = 0 →
          BEvent.spResume 11 ∈
            [BEvent.actionRun PostResumeAction.register_waiter,
              BEvent.wc WCEvent.lockAcquire,
              BEvent.wc (WCEvent.headWrite [10]), BEvent.wc WCEvent.lockRelease]) :=
  register_waiter_registers_or_resumes c8td c8wc 10 11
    ⟨1, PostResumeAction.none, Option.none, 1⟩
    (some ⟨2 + 2 ^ 63, [10], 1⟩)
    [BEvent.actionRun PostResumeAction.register_waiter,
      BEvent.wc WCEvent.lockAcquire,
      BEvent.wc (WCEvent.headWrite [10]), BEvent.wc WCEvent.lockRelease]
    rfl rfl rfl

end Tbb
